import Mathlib

/-!
Verification of the ScreenRecorder session engine (src/recorder.py).

The recorder is a state machine over `current_mode`, `ffmpeg_process` and
`current_output_file`, driven by five operations: `start_fulltime`,
`stop_fulltime`, `start_buffer`, `save_buffer` and `cancel_buffer`.
External effects (process spawning, the filesystem, the segment ring,
the concat subprocess, database registration) are reified: environment
outcomes are explicit arguments, and the filesystem/database actions an
operation performs are returned in an `Effects` record.
-/

/-- Recording mode: the Python field `current_mode` holds `"fulltime"`,
`"buffer"` or `None`; we model the string tags as an enumeration and the
nullable field as `Option Mode`. -/
inductive Mode where
  | fulltime
  | buffer
deriving DecidableEq, Repr

/-- A segment file in the buffer directory: its path and its filesystem
modification time (`os.path.getmtime`, modelled as a natural number). -/
structure Segment where
  path : String
  mtime : Nat
deriving DecidableEq, Repr

/-- Outcome of the external concat invocation (`subprocess.run` in
`save_buffer`).  `exited code` means the process ran to completion with the
given exit status — `subprocess.run` is called without `check=True`, so no
exception is raised for a nonzero status.  `timeout` is a raised
`TimeoutExpired` (60 s bound), `spawn_failed` any other exception. -/
inductive ConcatOutcome where
  | exited (code : Int)
  | timeout
  | spawn_failed
deriving DecidableEq, Repr

/-- Immutable per-recorder configuration: settings values plus the
capability-probe results cached in `__init__` (`_audio_device`,
`_hw_encoder`).  `sep` is `os.sep` (a single character, `\` on Windows). -/
structure Config where
  output_dir : String
  buffer_dir : String
  sep : Char
  buffer_duration_seconds : Nat
  audio_device : Option String
  hw_encoder : String
deriving DecidableEq, Repr

/-- Mutable recorder state: the fields assigned in `ScreenRecorder.__init__`
and mutated by the five operations. -/
structure RecState where
  current_mode : Option Mode
  ffmpeg_process : Option Nat
  current_output_file : Option String
  buffer_start_time : Option Nat
deriving DecidableEq, Repr

/-- State after `__init__`: no mode, no process, no output file. -/
def init_state : RecState :=
  { current_mode := none, ffmpeg_process := none, current_output_file := none,
    buffer_start_time := none }

/-- External actions performed by one operation call.
`cleanup_buffer` — `_cleanup_buffer()` was invoked;
`spawned` — the argument list handed to `subprocess.Popen`;
`forced_kill` — the graceful `q`/wait raised and `kill()` ran;
`register_attempted` — arguments of a `db.add_video` call (its own failure
is swallowed by the code and is not observable);
`manifest` — the lines written to `concat.txt`;
`concat_run` — argument list and timeout of the concat `subprocess.run`;
`manifest_removed` — the `finally` block removed `concat.txt`. -/
structure Effects where
  cleanup_buffer : Bool
  spawned : Option (List String)
  forced_kill : Bool
  register_attempted : Option (String × String)
  manifest : Option (List String)
  concat_run : Option (List String × Nat)
  manifest_removed : Bool
deriving DecidableEq, Repr

/-- The empty effect record: an operation that touched nothing external. -/
def noEffects : Effects :=
  { cleanup_buffer := false, spawned := none, forced_kill := false,
    register_attempted := none, manifest := none, concat_run := none,
    manifest_removed := false }

/-- Fixed segment length: `self.segment_duration = 10` in `__init__`. -/
def init_segment_duration : Nat := 10

/-- Timeout passed to the concat `subprocess.run` call (seconds). -/
def concat_timeout_seconds : Nat := 60

/-- Path join, `os.path.join` in the common case: directory, separator,
filename. -/
def joinPath (c : Config) (d f : String) : String :=
  d ++ String.mk [c.sep] ++ f

/-- Path normalization used for the concat manifest:
`seg.replace(os.sep, '/')` for the single-character `os.sep`. -/
def normalize_path (c : Config) (p : String) : String :=
  String.mk (p.data.map (fun ch => if ch = c.sep then '/' else ch))

/-- The ASCII apostrophe used to quote paths in the concat manifest. -/
def quoteChar : Char := Char.ofNat 39

/-- One manifest line, `f.write(f"file ...")` in `save_buffer`: the word
`file`, a space, then the normalized path wrapped in apostrophes. -/
def manifest_line (c : Config) (p : String) : String :=
  "file " ++ String.mk [quoteChar] ++ normalize_path c p ++ String.mk [quoteChar]

/-- Ring size computed in `start_buffer`:
`self.buffer_duration_seconds // self.segment_duration + 2`.  Both values
are nonnegative integers, and Nat division is floor division like
Python `//`. -/
def start_buffer_max_segments (bufferDuration segmentDuration : Nat) : Nat :=
  bufferDuration / segmentDuration + 2

/-- Render of `str(max_segments)` where the Python default is `None`. -/
def optNatStr : Option Nat → String
  | some n => toString n
  | none => "None"

/-- Translation of `ScreenRecorder._build_ffmpeg_cmd`: the argument list for
the capture backend, branching on the cached encoder and audio device. -/
def build_ffmpeg_cmd (c : Config) (output_path : String) (is_segment : Bool)
    (max_segments : Option Nat) : List String :=
  let cmd := ["ffmpeg"]
  let cmd := cmd ++ ["-f", "gdigrab", "-framerate", "30", "-i", "desktop"]
  let cmd := cmd ++ (match c.audio_device with
    | some d => ["-f", "dshow", "-i", "audio=" ++ d]
    | none => [])
  let cmd := cmd ++
    (if c.hw_encoder = "h264_nvenc" then
      ["-c:v", "h264_nvenc", "-preset", "p1", "-tune", "ll", "-rc", "vbr",
       "-cq", "23", "-pix_fmt", "yuv420p"]
    else if c.hw_encoder = "h264_amf" then
      ["-c:v", "h264_amf", "-quality", "speed", "-rc", "vbr_latency",
       "-qp_i", "23", "-qp_p", "23", "-pix_fmt", "yuv420p"]
    else if c.hw_encoder = "h264_qsv" then
      ["-c:v", "h264_qsv", "-preset", "veryfast", "-global_quality", "23",
       "-pix_fmt", "nv12"]
    else
      ["-c:v", "libx264", "-preset", "ultrafast", "-crf", "23",
       "-pix_fmt", "yuv420p"])
  let cmd := cmd ++ (match c.audio_device with
    | some _ => ["-c:a", "aac", "-b:a", "192k"]
    | none => [])
  let cmd := cmd ++
    (if is_segment then
      ["-f", "segment", "-segment_time", toString init_segment_duration,
       "-segment_wrap", optNatStr max_segments, "-reset_timestamps", "1"]
    else [])
  cmd ++ ["-y", output_path]

/-- Translation of `ScreenRecorder.start_fulltime`.  `spawn` is the
environment's answer to `subprocess.Popen`: a pid on success, `none` if it
raised.  Returns the boolean result, the new state and the effects.  Note
that on a spawn failure the code has already assigned
`current_output_file`, and that assignment is not rolled back. -/
def start_fulltime (c : Config) (s : RecState) (spawn : Option Nat)
    (ts : String) : Bool × RecState × Effects :=
  if s.current_mode ≠ none then (false, s, noEffects)
  else
    let out := joinPath c c.output_dir ("recording_" ++ ts ++ ".mp4")
    let s1 := { s with current_output_file := some out }
    let cmd := build_ffmpeg_cmd c out false none
    match spawn with
    | some pid =>
        (true,
         { s1 with ffmpeg_process := some pid, current_mode := some Mode.fulltime },
         { noEffects with cleanup_buffer := true, spawned := some cmd })
    | none =>
        (false, s1, { noEffects with cleanup_buffer := true, spawned := some cmd })

/-- Translation of `ScreenRecorder.stop_fulltime`.  `graceOk` tells whether
the graceful `q`/wait protocol succeeded (on failure the code kills the
process); either way the same state assignments follow.  `onDisk` is the
filesystem's answer to `os.path.exists`.  The return value is
`output_file` itself; the existence check only gates `db.add_video`. -/
def stop_fulltime (c : Config) (s : RecState) (graceOk : Bool)
    (onDisk : String → Bool) : Option String × RecState × Effects :=
  if s.current_mode ≠ some Mode.fulltime ∨ s.ffmpeg_process = none then
    (none, s, noEffects)
  else
    let output_file := s.current_output_file
    let eff := { noEffects with forced_kill := !graceOk }
    let s2 := { s with ffmpeg_process := none, current_mode := none,
                       current_output_file := none }
    match output_file with
    | some f =>
        if onDisk f then
          (some f, s2, { eff with register_attempted := some (f, "fulltime") })
        else (some f, s2, eff)
    | none => (none, s2, eff)

/-- Translation of `ScreenRecorder.start_buffer`.  On success the code also
records `time.time()` (argument `now`) in `_buffer_start_time`. -/
def start_buffer (c : Config) (s : RecState) (spawn : Option Nat)
    (now : Nat) : Bool × RecState × Effects :=
  if s.current_mode ≠ none then (false, s, noEffects)
  else
    let max_segments :=
      start_buffer_max_segments c.buffer_duration_seconds init_segment_duration
    let pattern := joinPath c c.buffer_dir "buffer_%04d.mp4"
    let cmd := build_ffmpeg_cmd c pattern true (some max_segments)
    match spawn with
    | some pid =>
        (true,
         { s with ffmpeg_process := some pid, current_mode := some Mode.buffer,
                  buffer_start_time := some now },
         { noEffects with cleanup_buffer := true, spawned := some cmd })
    | none =>
        (false, s, { noEffects with cleanup_buffer := true, spawned := some cmd })

/-- Lexicographic order on character lists by code point: the order Python
`sorted` uses on the path strings returned by `glob`. -/
def leChars : List Char → List Char → Bool
  | [], _ => true
  | _ :: _, [] => false
  | a :: as, b :: bs =>
    if a.toNat < b.toNat then true
    else if b.toNat < a.toNat then false
    else leChars as bs

/-- Order on segments by path, for `sorted(glob.glob(...))`. -/
def pathLe (a b : Segment) : Prop := leChars a.path.data b.path.data = true

instance : DecidableRel pathLe :=
  fun a b => inferInstanceAs (Decidable (_ = true))

/-- Order on segments by modification time, for
`segments.sort(key=lambda x: os.path.getmtime(x))`. -/
def mtimeLe (a b : Segment) : Prop := a.mtime ≤ b.mtime

instance : DecidableRel mtimeLe :=
  fun a b => inferInstanceAs (Decidable (a.mtime ≤ b.mtime))

instance : IsTotal Segment mtimeLe := ⟨fun a b => Nat.le_total a.mtime b.mtime⟩

instance : IsTrans Segment mtimeLe := ⟨fun _ _ _ => Nat.le_trans⟩

/-- Translation of `ScreenRecorder.save_buffer`.  `segs` is the glob result
for `buffer_*.mp4` in the buffer directory (the environment's filesystem),
`concat` the outcome of the concat subprocess, `onDisk` the
`os.path.exists` oracle consulted afterwards.  Python's stable sorts are
modelled with stable insertion sort: first lexically by path
(`sorted(...)`), then by modification time (`sort(key=getmtime)`). -/
def save_buffer (c : Config) (s : RecState) (graceOk : Bool) (ts : String)
    (segs : List Segment) (concat : ConcatOutcome) (onDisk : String → Bool) :
    Option String × RecState × Effects :=
  if s.current_mode ≠ some Mode.buffer ∨ s.ffmpeg_process = none then
    (none, s, noEffects)
  else
    let eff0 := { noEffects with forced_kill := !graceOk }
    let s2 := { s with ffmpeg_process := none, current_mode := none }
    let segments := List.insertionSort pathLe segs
    if segments.isEmpty then (none, s2, eff0)
    else
      let concat_file := joinPath c c.buffer_dir "concat.txt"
      let output_file := joinPath c c.output_dir ("replay_" ++ ts ++ ".mp4")
      let segments := List.insertionSort mtimeLe segments
      let lines := segments.map (fun seg => manifest_line c seg.path)
      let concat_cmd := ["ffmpeg", "-f", "concat", "-safe", "0", "-i",
                         concat_file, "-c", "copy", "-y", output_file]
      let eff := { eff0 with
        manifest := some lines,
        concat_run := some (concat_cmd, concat_timeout_seconds),
        cleanup_buffer := true, manifest_removed := true }
      match concat with
      | ConcatOutcome.exited _ =>
          if onDisk output_file then
            (some output_file, s2,
             { eff with register_attempted := some (output_file, "buffer") })
          else (some output_file, s2, eff)
      | ConcatOutcome.timeout => (none, s2, eff)
      | ConcatOutcome.spawn_failed => (none, s2, eff)

/-- Translation of `ScreenRecorder.cancel_buffer`: stop the process,
reset mode and handle, clean the buffer directory; no artifact. -/
def cancel_buffer (s : RecState) (graceOk : Bool) : RecState × Effects :=
  if s.current_mode ≠ some Mode.buffer ∨ s.ffmpeg_process = none then
    (s, noEffects)
  else
    ({ s with ffmpeg_process := none, current_mode := none },
     { noEffects with forced_kill := !graceOk, cleanup_buffer := true })

/-- ASCII lowering of one character, the effective behaviour of
`str.lower()` on the device names and priority terms involved. -/
def lowerChar (c : Char) : Char :=
  if 'A' ≤ c ∧ c ≤ 'Z' then Char.ofNat (c.toNat + 32) else c

/-- Lowering of a character list. -/
def lowerChars (l : List Char) : List Char := l.map lowerChar

/-- Whether the first character list starts the second one. -/
def chPre : List Char → List Char → Bool
  | [], _ => true
  | _ :: _, [] => false
  | a :: as, b :: bs => a == b && chPre as bs

/-- Whether the first character list occurs contiguously in the second:
the `in` operator of Python on strings. -/
def chSub (needle : List Char) : List Char → Bool
  | [] => needle.isEmpty
  | h :: t => chPre needle (h :: t) || chSub needle t

/-- Case-insensitive substring test, `priority.lower() in device.lower()`. -/
def containsCI (device term : String) : Bool :=
  chSub (lowerChars term.data) (lowerChars device.data)

/-- Priority list of system-audio capture device names in
`_detect_audio_device`. -/
def priority_names : List String :=
  ["Stereo Mix", "What U Hear", "CABLE Output", "Loopback"]

/-- Characters after the first double quote of a line, or `none` if the
line has no double quote (`line.find` returning `-1`). -/
def afterQuote : List Char → Option (List Char)
  | [] => none
  | ch :: t => if ch = Char.ofNat 34 then some t else afterQuote t

/-- Characters up to the next double quote, or `none` when no closing
quote exists (then `end > start` fails in the code and the line is
skipped). -/
def upToQuote : List Char → Option (List Char)
  | [] => none
  | ch :: t => if ch = Char.ofNat 34 then some [] else (upToQuote t).map (ch :: ·)

/-- Device-name extraction from one line of the backend's listing output:
the line must mention `(audio)`, the name sits between the first two double
quotes, must be nonempty (`end > start` plus the truthiness check) and must
not start with `@`. -/
def extract_device (line : String) : Option String :=
  if chSub "(audio)".data line.data then
    match afterQuote line.data with
    | none => none
    | some rest =>
      match upToQuote rest with
      | none => none
      | some name =>
        if name = [] then none
        else if name.head? = some '@' then none
        else some (String.mk name)
  else none

/-- The enumerated audio devices: the parsing loop of
`_detect_audio_device` over the listing output's lines. -/
def parse_audio_devices (lines : List String) : List String :=
  lines.filterMap extract_device

/-- Selection part of `_detect_audio_device`: the nested loop iterates
priority terms in the outer loop and enumerated devices in the inner loop,
then falls back to the first enumerated device, then to no device. -/
def select_audio_device (devices : List String) : Option String :=
  match priority_names.findSome?
      (fun p => devices.find? (fun d => containsCI d p)) with
  | some d => some d
  | none => devices.head?

/-- Selection rule as the specification words it: the first enumerated
device whose name contains any priority term, else the first enumerated
device.  Stated for comparison with `select_audio_device`. -/
def select_audio_device_spec (devices : List String) : Option String :=
  match devices.find?
      (fun d => priority_names.any (fun p => containsCI d p)) with
  | some d => some d
  | none => devices.head?

/-- The earliest priority term that some enumerated device contains. -/
def firstMatchedPriority (devices : List String) : Option String :=
  priority_names.find? (fun p => devices.any (fun d => containsCI d p))

/-- Translation of `ScreenRecorder._detect_audio_device`.  The probe input
is `none` when the device-listing subprocess raised (the surrounding
`try/except` then falls through to `return None`), otherwise the lines of
the listing output. -/
def detect_audio_device (probe : Option (List String)) : Option String :=
  match probe with
  | none => none
  | some lines => select_audio_device (parse_audio_devices lines)

/-- Outcome of the one-frame functional test of one encoder candidate:
exit status zero, nonzero exit status, or a raised exception (timeout or
launch failure).  Both failure forms continue to the next candidate. -/
inductive ProbeResult where
  | ok
  | failed
  | error
deriving DecidableEq, Repr

/-- Hardware encoder candidates in priority order, with vendor labels,
from `_detect_hw_encoder`. -/
def hw_encoders : List (String × String) :=
  [("h264_nvenc", "NVIDIA"), ("h264_amf", "AMD"), ("h264_qsv", "Intel")]

/-- The candidate loop of `_detect_hw_encoder`: returns the selected
encoder and the list of candidates actually put through the one-frame
test, in test order. -/
def detect_hw_encoder_loop (test : String → ProbeResult) :
    List (String × String) → String × List String
  | [] => ("libx264", [])
  | (enc, _) :: rest =>
    if test enc = ProbeResult.ok then (enc, [enc])
    else
      let r := detect_hw_encoder_loop test rest
      (r.1, enc :: r.2)

/-- Translation of `ScreenRecorder._detect_hw_encoder`: the selected
encoder identifier. -/
def detect_hw_encoder (test : String → ProbeResult) : String :=
  (detect_hw_encoder_loop test hw_encoders).1

/-- The encoders the detection actually tested. -/
def tested_encoders (test : String → ProbeResult) : List String :=
  (detect_hw_encoder_loop test hw_encoders).2

/-- One call into the recorder together with the environment's responses,
for reasoning about arbitrary call sequences. -/
inductive Act where
  | aStartFulltime (spawn : Option Nat) (ts : String)
  | aStopFulltime (graceOk : Bool) (onDisk : String → Bool)
  | aStartBuffer (spawn : Option Nat) (now : Nat)
  | aSaveBuffer (graceOk : Bool) (ts : String) (segs : List Segment)
      (concat : ConcatOutcome) (onDisk : String → Bool)
  | aCancelBuffer (graceOk : Bool)

/-- The state reached after one recorder call. -/
def step (c : Config) (s : RecState) : Act → RecState
  | Act.aStartFulltime spawn ts => (start_fulltime c s spawn ts).2.1
  | Act.aStopFulltime graceOk onDisk => (stop_fulltime c s graceOk onDisk).2.1
  | Act.aStartBuffer spawn now => (start_buffer c s spawn now).2.1
  | Act.aSaveBuffer graceOk ts segs concat onDisk =>
      (save_buffer c s graceOk ts segs concat onDisk).2.1
  | Act.aCancelBuffer graceOk => (cancel_buffer s graceOk).1

/-- The state reached after a sequence of recorder calls. -/
def run (c : Config) (s : RecState) (acts : List Act) : RecState :=
  acts.foldl (step c) s

/-- States reachable from the freshly constructed recorder by some call
sequence. -/
def Reachable (c : Config) (s : RecState) : Prop :=
  ∃ acts, run c init_state acts = s

/-- Invariant relating the mode tag and the process handle: the recorder is
Idle exactly when it holds no process handle. -/
def mode_process_inv (s : RecState) : Prop :=
  s.current_mode = none ↔ s.ffmpeg_process = none

/-- Concrete configuration for witnesses and counterexamples: Windows-style
separator, five-minute buffer, no audio device, software encoder. -/
def c0 : Config :=
  { output_dir := "C:\\rec\\out", buffer_dir := "C:\\rec\\buf", sep := '\\',
    buffer_duration_seconds := 300, audio_device := none, hw_encoder := "libx264" }

/-- A recorder in fulltime mode, as produced by a successful
`start_fulltime` (see `sF_reached`). -/
def sF : RecState :=
  { current_mode := some Mode.fulltime, ffmpeg_process := some 11,
    current_output_file := some "C:\\rec\\out\\recording_20240101_120000.mp4",
    buffer_start_time := none }

/-- A recorder in buffer mode, as produced by a successful `start_buffer`
(see `sB_reached`). -/
def sB : RecState :=
  { current_mode := some Mode.buffer, ffmpeg_process := some 12,
    current_output_file := none, buffer_start_time := some 1000 }

/-- Filesystem oracle on which no file exists. -/
def noFileOracle : String → Bool := fun _ => false

/-- Filesystem oracle on which every file exists. -/
def allFilesOracle : String → Bool := fun _ => true

/-- A single ring segment, for the concat counterexamples. -/
def demo_one_seg : List Segment :=
  [{ path := "C:\\rec\\buf\\buffer_0000.mp4", mtime := 50 }]

/-- Three ring segments whose modification times are out of filename
order, the wraparound situation of the specification's example. -/
def demo_segs : List Segment :=
  [{ path := "C:\\rec\\buf\\buffer_0000.mp4", mtime := 30 },
   { path := "C:\\rec\\buf\\buffer_0001.mp4", mtime := 10 },
   { path := "C:\\rec\\buf\\buffer_0002.mp4", mtime := 20 }]

/-- A call sequence exercising the forced-kill path: start buffer mode,
then save while the graceful stop fails and the concat times out. -/
def demo_acts : List Act :=
  [Act.aStartBuffer (some 12) 1000,
   Act.aSaveBuffer false "20240101_130000" demo_one_seg ConcatOutcome.timeout
     noFileOracle]

lemma mode_process_inv_init : mode_process_inv init_state := by
  simp [mode_process_inv, init_state]

lemma mode_process_inv_start_fulltime (c : Config) (s : RecState)
    (spawn : Option Nat) (ts : String) (h : mode_process_inv s) :
    mode_process_inv (start_fulltime c s spawn ts).2.1 := by
  unfold start_fulltime
  by_cases hm : s.current_mode = none
  · simp only [hm, ne_eq, not_true_eq_false, if_false]
    cases spawn with
    | some pid => simp [mode_process_inv]
    | none => simpa [mode_process_inv, hm] using h
  · simp only [ne_eq, hm, not_false_eq_true, if_true]
    exact h

lemma mode_process_inv_stop_fulltime (c : Config) (s : RecState)
    (graceOk : Bool) (onDisk : String → Bool) (h : mode_process_inv s) :
    mode_process_inv (stop_fulltime c s graceOk onDisk).2.1 := by
  unfold stop_fulltime
  split
  · exact h
  · cases s.current_output_file with
    | some f =>
        by_cases hd : onDisk f <;> simp [hd, mode_process_inv]
    | none => simp [mode_process_inv]

lemma mode_process_inv_start_buffer (c : Config) (s : RecState)
    (spawn : Option Nat) (now : Nat) (h : mode_process_inv s) :
    mode_process_inv (start_buffer c s spawn now).2.1 := by
  unfold start_buffer
  by_cases hm : s.current_mode = none
  · simp only [hm, ne_eq, not_true_eq_false, if_false]
    cases spawn with
    | some pid => simp [mode_process_inv]
    | none => exact h
  · simp only [ne_eq, hm, not_false_eq_true, if_true]
    exact h

lemma mode_process_inv_save_buffer (c : Config) (s : RecState)
    (graceOk : Bool) (ts : String) (segs : List Segment)
    (concat : ConcatOutcome) (onDisk : String → Bool) (h : mode_process_inv s) :
    mode_process_inv (save_buffer c s graceOk ts segs concat onDisk).2.1 := by
  unfold save_buffer
  split
  · exact h
  · by_cases he : (List.insertionSort pathLe segs).isEmpty
    · simp [he, mode_process_inv]
    · simp only [he, if_false]
      cases concat with
      | exited code =>
          by_cases hd : onDisk (joinPath c c.output_dir ("replay_" ++ ts ++ ".mp4")) <;>
            simp [hd, mode_process_inv]
      | timeout => simp [mode_process_inv]
      | spawn_failed => simp [mode_process_inv]

lemma mode_process_inv_cancel_buffer (s : RecState) (graceOk : Bool)
    (h : mode_process_inv s) : mode_process_inv (cancel_buffer s graceOk).1 := by
  unfold cancel_buffer
  split
  · exact h
  · simp [mode_process_inv]

lemma mode_process_inv_step (c : Config) (s : RecState) (a : Act)
    (h : mode_process_inv s) : mode_process_inv (step c s a) := by
  cases a with
  | aStartFulltime spawn ts => exact mode_process_inv_start_fulltime c s spawn ts h
  | aStopFulltime graceOk onDisk => exact mode_process_inv_stop_fulltime c s graceOk onDisk h
  | aStartBuffer spawn now => exact mode_process_inv_start_buffer c s spawn now h
  | aSaveBuffer graceOk ts segs concat onDisk =>
      exact mode_process_inv_save_buffer c s graceOk ts segs concat onDisk h
  | aCancelBuffer graceOk => exact mode_process_inv_cancel_buffer s graceOk h

lemma mode_process_inv_run (c : Config) (acts : List Act) :
    ∀ s, mode_process_inv s → mode_process_inv (run c s acts) := by
  induction acts with
  | nil => intro s h; exact h
  | cons a rest ih => intro s h; exact ih (step c s a) (mode_process_inv_step c s a h)

/-- C1: in every reachable state at most one session is active —
`current_mode` is fulltime, buffer or none, never both — and a start call
made while `current_mode` is not none returns `False`, leaves the whole
recorder state unchanged and performs no external action. -/
theorem single_active_session :
    (∀ c s, Reachable c s →
      (s.current_mode = none ∨ s.current_mode = some Mode.fulltime ∨
        s.current_mode = some Mode.buffer) ∧
      ¬(s.current_mode = some Mode.fulltime ∧ s.current_mode = some Mode.buffer)) ∧
    (∀ c s spawn ts, s.current_mode ≠ none →
      start_fulltime c s spawn ts = (false, s, noEffects)) ∧
    (∀ c s spawn now, s.current_mode ≠ none →
      start_buffer c s spawn now = (false, s, noEffects)) := by
  refine ⟨fun c s _ => ⟨?_, ?_⟩, fun c s spawn ts h => ?_, fun c s spawn now h => ?_⟩
  · rcases s.current_mode with _ | m
    · exact Or.inl rfl
    · cases m
      · exact Or.inr (Or.inl rfl)
      · exact Or.inr (Or.inr rfl)
  · rintro ⟨h1, h2⟩
    rw [h1] at h2
    exact Mode.noConfusion (Option.some.inj h2)
  · unfold start_fulltime
    simp [h]
  · unfold start_buffer
    simp [h]

/-- Witness for C1: concrete busy recorders reject both start calls with
state and effects untouched. -/
theorem single_active_session_witness :
    start_fulltime c0 sB (some 99) "20240102_000000" = (false, sB, noEffects) ∧
    start_buffer c0 sF (some 99) 5 = (false, sF, noEffects) :=
  ⟨single_active_session.2.1 c0 sB (some 99) "20240102_000000" (by decide),
   single_active_session.2.2 c0 sF (some 99) 5 (by decide)⟩

/-- C10: in every reachable state, `current_mode` is none exactly when
`ffmpeg_process` is none — no live handle while Idle, and an active mode
always holds a handle, the forced-kill paths included. -/
theorem process_handle_iff_active (c : Config) (s : RecState)
    (h : Reachable c s) : s.current_mode = none ↔ s.ffmpeg_process = none := by
  obtain ⟨acts, rfl⟩ := h
  exact mode_process_inv_run c acts init_state mode_process_inv_init

/-- Witness for C10: the invariant after a run through buffer mode whose
graceful stop failed (forced kill) and whose concat timed out. -/
theorem process_handle_iff_active_witness :
    (run c0 init_state demo_acts).current_mode = none ↔
      (run c0 init_state demo_acts).ffmpeg_process = none :=
  process_handle_iff_active c0 (run c0 init_state demo_acts) ⟨demo_acts, rfl⟩

/-- C2 counterexample: with the output file absent from disk the claim
predicts an empty result, but `stop_fulltime` returns the output path
anyway — the existence check only guards the database registration. -/
theorem stop_fulltime_missing_file_counterexample :
    noFileOracle "C:\\rec\\out\\recording_20240101_120000.mp4" = false ∧
    (stop_fulltime c0 sF true noFileOracle).1 =
      some "C:\\rec\\out\\recording_20240101_120000.mp4" ∧
    (stop_fulltime c0 sF true noFileOracle).2.2.register_attempted = none := by
  decide

/-- C2 amended: `stop_fulltime` in fulltime mode returns
`current_output_file` unconditionally; the on-disk existence check gates
only the registration of the artifact. -/
theorem stop_fulltime_returns_recorded_path (c : Config) (s : RecState)
    (graceOk : Bool) (onDisk : String → Bool)
    (h1 : s.current_mode = some Mode.fulltime) (h2 : s.ffmpeg_process ≠ none) :
    (stop_fulltime c s graceOk onDisk).1 = s.current_output_file ∧
    (stop_fulltime c s graceOk onDisk).2.2.register_attempted =
      (match s.current_output_file with
       | some f => if onDisk f then some (f, "fulltime") else none
       | none => none) := by
  unfold stop_fulltime
  have hg : ¬(s.current_mode ≠ some Mode.fulltime ∨ s.ffmpeg_process = none) := by
    push_neg
    exact ⟨by simp [h1], h2⟩
  rw [if_neg hg]
  cases hout : s.current_output_file with
  | some f =>
      by_cases hd : onDisk f <;> simp [hout, hd, noEffects]
  | none => simp [hout, noEffects]

/-- Witness for C2 amended: the fulltime fixture, with every file present,
returns its output path and registers it. -/
theorem stop_fulltime_returns_recorded_path_witness :
    (stop_fulltime c0 sF true allFilesOracle).1 = sF.current_output_file ∧
    (stop_fulltime c0 sF true allFilesOracle).2.2.register_attempted =
      (match sF.current_output_file with
       | some f => if allFilesOracle f then some (f, "fulltime") else none
       | none => none) :=
  stop_fulltime_returns_recorded_path c0 sF true allFilesOracle (by decide) (by decide)

lemma save_buffer_guard_false (s : RecState)
    (h1 : s.current_mode = some Mode.buffer) (h2 : s.ffmpeg_process ≠ none) :
    ¬(s.current_mode ≠ some Mode.buffer ∨ s.ffmpeg_process = none) := by
  push_neg
  exact ⟨by simp [h1], h2⟩

lemma insertionSort_ne_nil (r : Segment → Segment → Prop) [DecidableRel r]
    {l : List Segment} (h : l ≠ []) : List.insertionSort r l ≠ [] := by
  intro he
  apply h
  have hp := List.perm_insertionSort r l
  rw [he] at hp
  exact hp.symm.eq_nil

lemma insertionSort_isEmpty_false (r : Segment → Segment → Prop) [DecidableRel r]
    {l : List Segment} (h : l ≠ []) :
    (List.insertionSort r l).isEmpty = false := by
  cases hl : List.insertionSort r l with
  | nil => exact absurd hl (insertionSort_ne_nil r h)
  | cons a t => rfl

/-- C3: `save_buffer` in buffer mode with an empty segment ring returns no
output, never invokes the concat subprocess, and still transitions the
mode to Idle. -/
theorem save_buffer_empty_ring (c : Config) (s : RecState) (graceOk : Bool)
    (ts : String) (concat : ConcatOutcome) (onDisk : String → Bool)
    (h1 : s.current_mode = some Mode.buffer) (h2 : s.ffmpeg_process ≠ none) :
    (save_buffer c s graceOk ts [] concat onDisk).1 = none ∧
    (save_buffer c s graceOk ts [] concat onDisk).2.2.concat_run = none ∧
    (save_buffer c s graceOk ts [] concat onDisk).2.1.current_mode = none := by
  unfold save_buffer
  rw [if_neg (save_buffer_guard_false s h1 h2)]
  simp [noEffects]

/-- Witness for C3 at the buffer-mode fixture. -/
theorem save_buffer_empty_ring_witness :
    (save_buffer c0 sB true "20240101_130000" [] (ConcatOutcome.exited 0) noFileOracle).1 = none ∧
    (save_buffer c0 sB true "20240101_130000" [] (ConcatOutcome.exited 0) noFileOracle).2.2.concat_run = none ∧
    (save_buffer c0 sB true "20240101_130000" [] (ConcatOutcome.exited 0) noFileOracle).2.1.current_mode = none :=
  save_buffer_empty_ring c0 sB true "20240101_130000" (ConcatOutcome.exited 0)
    noFileOracle (by decide) (by decide)

/-- C4 counterexample: on the no-segments terminal path `save_buffer`
returns without performing any buffer-directory cleanup, against the
claim's "on every terminal path". -/
theorem save_buffer_no_cleanup_counterexample :
    sB.current_mode = some Mode.buffer ∧
    (save_buffer c0 sB true "20240101_130000" [] (ConcatOutcome.exited 0) noFileOracle).2.2.cleanup_buffer = false ∧
    (save_buffer c0 sB true "20240101_130000" [] (ConcatOutcome.exited 0) noFileOracle).2.2.manifest_removed = false := by
  decide

/-- C4 amended: on every terminal path that reaches the concatenation
stage — success, nonzero exit, timeout or a failed launch — `save_buffer`
performs buffer cleanup and removes the transient concat manifest; the
no-segments path alone returns before any cleanup. -/
theorem save_buffer_cleanup_after_concat (c : Config) (s : RecState)
    (graceOk : Bool) (ts : String) (segs : List Segment)
    (concat : ConcatOutcome) (onDisk : String → Bool)
    (h1 : s.current_mode = some Mode.buffer) (h2 : s.ffmpeg_process ≠ none)
    (h3 : segs ≠ []) :
    (save_buffer c s graceOk ts segs concat onDisk).2.2.cleanup_buffer = true ∧
    (save_buffer c s graceOk ts segs concat onDisk).2.2.manifest_removed = true := by
  unfold save_buffer
  rw [if_neg (save_buffer_guard_false s h1 h2)]
  simp only [insertionSort_isEmpty_false pathLe h3, if_false, Bool.false_eq_true]
  cases concat with
  | exited code =>
      by_cases hd : onDisk (joinPath c c.output_dir ("replay_" ++ ts ++ ".mp4")) <;>
        simp [hd]
  | timeout => simp
  | spawn_failed => simp

/-- Witness for C4 amended: a timed-out concat still cleans up. -/
theorem save_buffer_cleanup_after_concat_witness :
    (save_buffer c0 sB false "20240101_130000" demo_one_seg ConcatOutcome.timeout noFileOracle).2.2.cleanup_buffer = true ∧
    (save_buffer c0 sB false "20240101_130000" demo_one_seg ConcatOutcome.timeout noFileOracle).2.2.manifest_removed = true :=
  save_buffer_cleanup_after_concat c0 sB false "20240101_130000" demo_one_seg
    ConcatOutcome.timeout noFileOracle (by decide) (by decide) (by decide)

/-- C5 counterexample: the concat subprocess exits with status 1 and the
output file does not exist, yet `save_buffer` returns the output path —
`subprocess.run` is invoked without status checking, so only exceptions
(timeout, launch failure) surface as no output. -/
theorem save_buffer_nonzero_exit_counterexample :
    noFileOracle (joinPath c0 c0.output_dir "replay_20240101_140000.mp4") = false ∧
    (save_buffer c0 sB true "20240101_140000" demo_one_seg (ConcatOutcome.exited 1) noFileOracle).1 =
      some (joinPath c0 c0.output_dir "replay_20240101_140000.mp4") := by
  decide

/-- C5 amended: a concat timeout or launch failure yields no output, but a
nonzero exit status of the join process is not detected — `save_buffer`
then returns the output path regardless of the file's existence. -/
theorem save_buffer_concat_outcomes (c : Config) (s : RecState)
    (graceOk : Bool) (ts : String) (segs : List Segment) (onDisk : String → Bool)
    (h1 : s.current_mode = some Mode.buffer) (h2 : s.ffmpeg_process ≠ none)
    (h3 : segs ≠ []) :
    (save_buffer c s graceOk ts segs ConcatOutcome.timeout onDisk).1 = none ∧
    (save_buffer c s graceOk ts segs ConcatOutcome.spawn_failed onDisk).1 = none ∧
    (∀ code, (save_buffer c s graceOk ts segs (ConcatOutcome.exited code) onDisk).1 =
      some (joinPath c c.output_dir ("replay_" ++ ts ++ ".mp4"))) := by
  refine ⟨?_, ?_, fun code => ?_⟩ <;>
  · unfold save_buffer
    rw [if_neg (save_buffer_guard_false s h1 h2)]
    simp only [insertionSort_isEmpty_false pathLe h3, if_false, Bool.false_eq_true]
    all_goals
      by_cases hd : onDisk (joinPath c c.output_dir ("replay_" ++ ts ++ ".mp4")) <;>
        simp [hd]

/-- Witness for C5 amended at the buffer-mode fixture with one segment. -/
theorem save_buffer_concat_outcomes_witness :
    (save_buffer c0 sB true "20240101_140000" demo_one_seg ConcatOutcome.timeout noFileOracle).1 = none ∧
    (save_buffer c0 sB true "20240101_140000" demo_one_seg ConcatOutcome.spawn_failed noFileOracle).1 = none ∧
    (∀ code, (save_buffer c0 sB true "20240101_140000" demo_one_seg (ConcatOutcome.exited code) noFileOracle).1 =
      some (joinPath c0 c0.output_dir ("replay_" ++ "20240101_140000" ++ ".mp4"))) :=
  save_buffer_concat_outcomes c0 sB true "20240101_140000" demo_one_seg
    noFileOracle (by decide) (by decide) (by decide)

/-- C6: the ring size computed by `start_buffer` is
`floor(bufferDurationSeconds / segmentDurationSeconds) + 2` for every
duration (Nat division is floor division, as Python `//` on these
nonnegative values), it equals 32 at 300/10, and an idle-state
`start_buffer` hands exactly this wrap count to the backend command. -/
theorem max_segments_formula :
    (∀ b sd, start_buffer_max_segments b sd = b / sd + 2) ∧
    start_buffer_max_segments 300 10 = 32 ∧
    (∀ c s spawn now, s.current_mode = none →
      (start_buffer c s spawn now).2.2.spawned =
        some (build_ffmpeg_cmd c (joinPath c c.buffer_dir "buffer_%04d.mp4") true
          (some (start_buffer_max_segments c.buffer_duration_seconds
            init_segment_duration)))) := by
  refine ⟨fun b sd => rfl, by decide, fun c s spawn now h => ?_⟩
  unfold start_buffer
  rw [if_neg (by simp [h])]
  cases spawn <;> rfl

/-- Witness for C6: the formula instance and the wrap count actually
spawned from the idle fixture with the 300-second configuration. -/
theorem max_segments_formula_witness :
    start_buffer_max_segments 300 10 = 32 ∧
    (start_buffer c0 init_state (some 9) 77).2.2.spawned =
      some (build_ffmpeg_cmd c0 (joinPath c0 c0.buffer_dir "buffer_%04d.mp4") true
        (some (start_buffer_max_segments c0.buffer_duration_seconds
          init_segment_duration))) :=
  ⟨max_segments_formula.2.1,
   max_segments_formula.2.2 c0 init_state (some 9) 77 (by decide)⟩

/-- C9: `save_buffer` orders the segments by modification time ascending —
as a permutation of the globbed segments that is pairwise sorted by
`mtime`, independent of filenames — and writes one manifest line per
segment, `file` plus the quoted separator-normalized path, in exactly that
order. -/
theorem manifest_order_by_mtime (c : Config) (s : RecState) (graceOk : Bool)
    (ts : String) (segs : List Segment) (concat : ConcatOutcome)
    (onDisk : String → Bool)
    (h1 : s.current_mode = some Mode.buffer) (h2 : s.ffmpeg_process ≠ none)
    (h3 : segs ≠ []) :
    (save_buffer c s graceOk ts segs concat onDisk).2.2.manifest =
      some ((List.insertionSort mtimeLe (List.insertionSort pathLe segs)).map
        (fun seg => manifest_line c seg.path)) ∧
    (List.insertionSort mtimeLe (List.insertionSort pathLe segs)).Perm segs ∧
    List.Sorted mtimeLe (List.insertionSort mtimeLe (List.insertionSort pathLe segs)) := by
  refine ⟨?_, ?_, List.sorted_insertionSort mtimeLe (List.insertionSort pathLe segs)⟩
  · unfold save_buffer
    rw [if_neg (save_buffer_guard_false s h1 h2)]
    simp only [insertionSort_isEmpty_false pathLe h3, if_false, Bool.false_eq_true]
    cases concat with
    | exited code =>
        by_cases hd : onDisk (joinPath c c.output_dir ("replay_" ++ ts ++ ".mp4")) <;>
          simp [hd]
    | timeout => rfl
    | spawn_failed => rfl
  · exact (List.perm_insertionSort mtimeLe (List.insertionSort pathLe segs)).trans
      (List.perm_insertionSort pathLe segs)

/-- Witness for C9: three segments created with modification times out of
filename order (30, 10, 20) are listed in the manifest in mtime order. -/
theorem manifest_order_by_mtime_witness :
    (save_buffer c0 sB true "20240101_150000" demo_segs (ConcatOutcome.exited 0) allFilesOracle).2.2.manifest =
      some ((List.insertionSort mtimeLe (List.insertionSort pathLe demo_segs)).map
        (fun seg => manifest_line c0 seg.path)) ∧
    (List.insertionSort mtimeLe (List.insertionSort pathLe demo_segs)).Perm demo_segs ∧
    List.Sorted mtimeLe (List.insertionSort mtimeLe (List.insertionSort pathLe demo_segs)) :=
  manifest_order_by_mtime c0 sB true "20240101_150000" demo_segs
    (ConcatOutcome.exited 0) allFilesOracle (by decide) (by decide) (by decide)

lemma findSome_find_match (ps devices : List String) :
    ps.findSome? (fun p => devices.find? (fun d => containsCI d p)) =
      (match ps.find? (fun p => devices.any (fun d => containsCI d p)) with
       | some p => devices.find? (fun d => containsCI d p)
       | none => none) := by
  induction ps with
  | nil => rfl
  | cons p rest ih =>
    by_cases hp : devices.any (fun d => containsCI d p) = true
    · have hsome : (devices.find? (fun d => containsCI d p)).isSome := by
        rw [List.find?_isSome]
        simpa using List.any_eq_true.mp hp
      obtain ⟨d0, hd0⟩ := Option.isSome_iff_exists.mp hsome
      rw [List.findSome?_cons,
        List.find?_cons_of_pos (p := fun q => devices.any (fun d => containsCI d q))
          rest hp, hd0]
      simp [hd0]
    · have hnone : devices.find? (fun d => containsCI d p) = none := by
        rw [List.find?_eq_none]
        intro x hx
        simp only [Bool.not_eq_true]
        by_contra hcx
        exact hp (List.any_eq_true.mpr ⟨x, hx, by simpa using hcx⟩)
      rw [List.findSome?_cons, hnone, List.find?_cons_of_neg _ (by simp [hp]), ih]

/-- C7 counterexample: with devices enumerated as ACME Loopback then
Stereo Mix (Realtek), the first enumerated device containing a priority
term is ACME Loopback, but the code selects Stereo Mix (Realtek) — the
outer loop runs over priority terms, not over enumeration order. -/
theorem audio_priority_order_counterexample :
    select_audio_device ["ACME Loopback", "Stereo Mix (Realtek)"] =
      some "Stereo Mix (Realtek)" ∧
    select_audio_device_spec ["ACME Loopback", "Stereo Mix (Realtek)"] =
      some "ACME Loopback" ∧
    containsCI "ACME Loopback" "Loopback" = true := by
  decide

/-- C7 amended: selection is priority-major — for the earliest priority
term that any enumerated device contains (case-insensitively), the first
enumerated device containing that term is returned; with no match the
first enumerated device; with no devices, or a probing error, no device.
The full probe equals parsing followed by this selection. -/
theorem audio_device_selection :
    detect_audio_device none = none ∧
    (∀ lines, detect_audio_device (some lines) =
      select_audio_device (parse_audio_devices lines)) ∧
    select_audio_device [] = none ∧
    (∀ devices p, firstMatchedPriority devices = some p →
      select_audio_device devices = devices.find? (fun d => containsCI d p)) ∧
    (∀ devices, firstMatchedPriority devices = none →
      select_audio_device devices = devices.head?) := by
  refine ⟨rfl, fun lines => rfl, by decide, fun devices p hp => ?_, fun devices hn => ?_⟩
  · unfold select_audio_device
    rw [findSome_find_match]
    unfold firstMatchedPriority at hp
    rw [hp]
    have hany : devices.any (fun d => containsCI d p) = true := by
      simpa using List.find?_some hp
    have hsome : (devices.find? (fun d => containsCI d p)).isSome := by
      rw [List.find?_isSome]
      simpa using List.any_eq_true.mp hany
    obtain ⟨d0, hd0⟩ := Option.isSome_iff_exists.mp hsome
    simp [hd0]
  · unfold select_audio_device
    rw [findSome_find_match]
    unfold firstMatchedPriority at hn
    rw [hn]

/-- Witness for C7: the specification's own audio-probe example, where the
priority term Stereo Mix is matched and the matching device is selected. -/
theorem audio_device_selection_witness :
    firstMatchedPriority ["Microphone (Realtek)", "Stereo Mix (Realtek)"] =
      some "Stereo Mix" ∧
    select_audio_device ["Microphone (Realtek)", "Stereo Mix (Realtek)"] =
      ["Microphone (Realtek)", "Stereo Mix (Realtek)"].find?
        (fun d => containsCI d "Stereo Mix") :=
  ⟨by decide,
   audio_device_selection.2.2.2.1 ["Microphone (Realtek)", "Stereo Mix (Realtek)"]
     "Stereo Mix" (by decide)⟩

/-- C8: for every assignment of test outcomes to the candidates probed in
priority order nvenc, amf, qsv, the selected encoder is the first
candidate whose one-frame test succeeds, with libx264 the fallback when
every candidate fails or errors; libx264 itself is never put through the
test. -/
theorem encoder_selection (test : String → ProbeResult) :
    detect_hw_encoder test =
      (((hw_encoders.map Prod.fst).find?
        (fun e => decide (test e = ProbeResult.ok))).getD "libx264") ∧
    "libx264" ∉ tested_encoders test := by
  unfold detect_hw_encoder tested_encoders hw_encoders
  by_cases h1 : test "h264_nvenc" = ProbeResult.ok
  · simp [detect_hw_encoder_loop, h1]
  · by_cases h2 : test "h264_amf" = ProbeResult.ok
    · simp [detect_hw_encoder_loop, h1, h2]
    · by_cases h3 : test "h264_qsv" = ProbeResult.ok
      · simp [detect_hw_encoder_loop, h1, h2, h3]
      · simp [detect_hw_encoder_loop, h1, h2, h3]
